import Mathlib

/-!
Shallow embedding of `src/Micro-Controlers/Firmware/stm32/stm32_firmware.cpp`
(IRWP v2.5, STM32 build): the system-state globals, the output driver
(`digitalWrite` / `analogWrite` with a write log), the serial command
processor, the autonomous pattern cycle, and the main loop with its
emergency / interlock gate.  Machine integers are modelled as `Nat` with
explicit `% 2^w` reductions where the C types (`uint8_t`, `uint32_t`)
can overflow.  The `while(1)` alert loop inside `emergencyHandler` is
modelled by a `halted` flag: once set, no further event has any effect.
-/

set_option maxRecDepth 100000
set_option maxHeartbeats 2000000

namespace IRWP

/-- The `SystemState` enum (IDLE = 0, ARMED = 1, CYCLING = 2, EMERGENCY = 99). -/
inductive SState where
  | idle
  | armed
  | cycling
  | emergency
deriving DecidableEq, Repr

/-- Numeric code of a `SystemState`, as printed by `sendStatusJson`. -/
def stateCode : SState → Nat
  | .idle => 0
  | .armed => 1
  | .cycling => 2
  | .emergency => 99

/-- `struct AttackPhase { uint8_t ledGroup; uint16_t durationMs; uint8_t intensity; }`. -/
structure AttackPhase where
  ledGroup : Nat
  durationMs : Nat
  intensity : Nat
deriving DecidableEq, Repr

/-- `struct AttackPattern { char name[48]; uint8_t phaseCount; AttackPhase phases[20]; uint8_t repeatCount; }`.
The `phases` array always has 20 slots in C; Lean-side lists are padded to length 20. -/
structure AttackPattern where
  name : String
  phaseCount : Nat
  phases : List AttackPhase
  repeatCount : Nat
deriving DecidableEq, Repr

/-- A value-initialized `AttackPhase` (the zero bytes of an unlisted aggregate element). -/
def zeroPhase : AttackPhase := ⟨0, 0, 0⟩

/-- Pad a phase list with value-initialized elements up to the C array capacity of 20. -/
def padPhases (l : List AttackPhase) : List AttackPhase :=
  l ++ List.replicate (20 - l.length) zeroPhase

/-- The built-in `PROVEN_PATTERNS` catalog (the stray `true` initializer on the third
entry has no corresponding struct field and is dropped). -/
def PROVEN_PATTERNS : List AttackPattern :=
  [ ⟨"AGC_Lock_5_Second", 9,
      padPhases [⟨4,50,255⟩, ⟨4,50,0⟩, ⟨4,50,255⟩, ⟨4,50,0⟩,
                 ⟨4,50,255⟩, ⟨4,50,0⟩, ⟨4,50,255⟩, ⟨4,50,0⟩,
                 ⟨4,5000,255⟩], 1⟩,
    ⟨"Sensor_Saturation_Blast", 1, padPhases [⟨4,5000,255⟩], 1⟩,
    ⟨"Rolling_Shutter_Flicker", 1, padPhases [⟨5,100,200⟩], 3⟩ ]

/-- `PATTERN_COUNT` = number of catalog entries. -/
def PATTERN_COUNT : Nat := 3

/-- The output pins the firmware writes. -/
inductive Pin where
  | hat
  | hoodie
  | pants
  | shoes
  | relay
  | statusLed
deriving DecidableEq, Repr

/-- One logged write to an output pin. -/
inductive PinWrite where
  | digital (p : Pin) (v : Nat)
  | analog (p : Pin) (v : Nat)
deriving DecidableEq, Repr

/-- The firmware's mutable globals plus the modelled output registers,
a pin-write log, the serial output log, and the `halted` flag standing
for the non-returning alert loop of `emergencyHandler`. -/
structure Sys where
  currentState : SState
  safetyEngaged : Bool
  emergencyTriggered : Bool
  currentPattern : AttackPattern
  currentPhaseIndex : Nat
  cycleStartTime : Nat
  globalCycleCount : Nat
  hat : Nat
  hoodie : Nat
  pants : Nat
  shoes : Nat
  relay : Nat
  statusLed : Nat
  pinLog : List PinWrite
  serialOut : List String
  halted : Bool
deriving DecidableEq, Repr

/-- 2^32, the modulus of `uint32_t` arithmetic. -/
def M32 : Nat := 4294967296

/-- The digital level a `digitalWrite` value produces (any nonzero value is HIGH). -/
def lvlOf (v : Nat) : Nat := if v = 0 then 0 else 1

/-- `digitalWrite(pin, v)`: any nonzero value drives the pin HIGH (level 1). -/
def digWrite (p : Pin) (v : Nat) (st : Sys) : Sys :=
  let lvl : Nat := lvlOf v
  let st := { st with pinLog := st.pinLog ++ [PinWrite.digital p lvl] }
  match p with
  | .hat => { st with hat := lvl }
  | .hoodie => { st with hoodie := lvl }
  | .pants => { st with pants := lvl }
  | .shoes => { st with shoes := lvl }
  | .relay => { st with relay := lvl }
  | .statusLed => { st with statusLed := lvl }

/-- `analogWrite(pin, v)`: PWM duty of `v` (a `uint8_t` at every call site). -/
def anaWrite (p : Pin) (v : Nat) (st : Sys) : Sys :=
  let lvl : Nat := v % 256
  let st := { st with pinLog := st.pinLog ++ [PinWrite.analog p lvl] }
  match p with
  | .hat => { st with hat := lvl }
  | .hoodie => { st with hoodie := lvl }
  | .pants => { st with pants := lvl }
  | .shoes => { st with shoes := lvl }
  | .relay => { st with relay := lvl }
  | .statusLed => { st with statusLed := lvl }

/-- `allLEDsOff()`. -/
def allLEDsOff (st : Sys) : Sys :=
  st |> digWrite .hat 0 |> digWrite .hoodie 0 |> digWrite .pants 0
     |> digWrite .shoes 0 |> digWrite .relay 0

/-- One iteration of the `flickerAll` loop body (`delayMicroseconds` is timing-only). -/
def flickerStep (intensity i : Nat) (st : Sys) : Sys :=
  st |> digWrite .hat ((i % 2) * intensity)
     |> digWrite .hoodie (((i + 1) % 2) * intensity)
     |> digWrite .pants (((i + 2) % 2) * intensity)
     |> digWrite .shoes (((i + 3) % 2) * intensity)

/-- `flickerAll(intensity)`: 50 alternating digital writes across the four channels. -/
def flickerAll (intensity : Nat) (st : Sys) : Sys :=
  (List.range 50).foldl (fun s i => flickerStep intensity i s) st

/-- `setLEDGroup(group, intensity)` (both parameters are `uint8_t` at the C boundary). -/
def setLEDGroup (group intensity : Nat) (st : Sys) : Sys :=
  let st := digWrite .relay 1 st
  if group = 0 then anaWrite .hat intensity st
  else if group = 1 then anaWrite .hoodie intensity st
  else if group = 2 then anaWrite .pants intensity st
  else if group = 3 then anaWrite .shoes intensity st
  else if group = 4 then
    st |> anaWrite .hat intensity |> anaWrite .hoodie intensity
       |> anaWrite .pants intensity |> anaWrite .shoes intensity
  else if group = 5 then flickerAll intensity st
  else st

/-- Append one line to the serial output (`Serial.println` and friends). -/
def serialLine (s : String) (st : Sys) : Sys :=
  { st with serialOut := st.serialOut ++ [s] }

/-- `emergencyHandler()`: latches the flag, enters EMERGENCY, kills the outputs,
announces, lights the status LED and never returns (modelled by `halted`). -/
def emergencyHandler (st : Sys) : Sys :=
  let st := { st with emergencyTriggered := true, currentState := .emergency }
  let st := allLEDsOff st
  let st := serialLine "EMERGENCY_STOPPED" st
  let st := digWrite .statusLed 1 st
  { st with halted := true }

/-- `emergencyISR()`: the interrupt handler attached to the emergency pin. -/
def emergencyISR (st : Sys) : Sys :=
  { st with emergencyTriggered := true }

/-- The C `isspace` class used by `atol` and by Arduino `String::trim`. -/
def isSpaceC (c : Char) : Bool :=
  c = ' ' || c = '\t' || c = '\n' || c = '\r' || c = Char.ofNat 11 || c = Char.ofNat 12

/-- Accumulate the value of a maximal leading digit run, `atol`-style. -/
def digitsVal : List Char → Nat → Nat
  | [], acc => acc
  | c :: cs, acc => if c.isDigit then digitsVal cs (acc * 10 + (c.toNat - 48)) else acc

/-- `atol` as called by Arduino `String::toInt`: skip leading whitespace, optional
sign, maximal digit run; no digits gives 0. -/
def atol (s : List Char) : Int :=
  match s.dropWhile isSpaceC with
  | '-' :: rest => - (digitsVal rest 0 : Int)
  | '+' :: rest => (digitsVal rest 0 : Int)
  | s1 => (digitsVal s1 0 : Int)

/-- Arduino `String::toInt`. -/
def toIntS (s : String) : Int := atol s.data

/-- Conversion of a C `int` to `uint8_t` (reduction mod 256). -/
def toU8 (i : Int) : Nat := (i % 256).toNat

/-- Conversion of a C `int` to `unsigned int` (how `-1` indices reach `substring`). -/
def toU32 (i : Int) : Nat := (i % (M32 : Int)).toNat

/-- Arduino `String::indexOf(pat, from)`: first position `≥ from` where `pat`
occurs, `-1` when absent. -/
def listIndexOfFrom (s pat : List Char) (start : Nat) : Int :=
  match (List.range (s.length + 1)).filter
      (fun i => decide (start ≤ i) && pat.isPrefixOf (s.drop i)) with
  | [] => -1
  | i :: _ => (i : Int)

/-- Arduino `String::substring(left, right)`: swaps a reversed range, clamps to
the string length, empty when `left` is past the end. -/
def subStr (s : List Char) (l r : Nat) : List Char :=
  let lo := if l > r then r else l
  let hi := if l > r then l else r
  if lo ≥ s.length then [] else (s.drop lo).take (min hi s.length - lo)

/-- Arduino `String::trim`. -/
def trimS (s : String) : String :=
  ⟨((s.data.dropWhile isSpaceC).reverse.dropWhile isSpaceC).reverse⟩

/-- Does `p` start the string `s` (Arduino `String::startsWith`)? -/
def strStarts (s p : String) : Bool := p.data.isPrefixOf s.data

/-- The body of the `SET_GROUP:` branch: ad hoc substring parsing of the JSON-ish
payload, then `setLEDGroup` when both keys were found, then `GROUP_SET` always. -/
def setGroupBranch (cmd : String) (st : Sys) : Sys :=
  let groupStart := toU32 (listIndexOfFrom cmd.data [':'] 0 + 1)
  let json := cmd.data.drop groupStart
  let gIdx := listIndexOfFrom json ("\"group\":".data) 0
  let iIdx := listIndexOfFrom json ("\"intensity\":".data) 0
  let st :=
    if gIdx > 0 && iIdx > 0 then
      let group := atol (subStr json (toU32 (gIdx + 8))
        (toU32 (listIndexOfFrom json [','] (toU32 gIdx))))
      let intensity := atol (subStr json (toU32 (iIdx + 11))
        (toU32 (listIndexOfFrom json [Char.ofNat 125] (toU32 iIdx))))
      setLEDGroup (toU8 group) (toU8 intensity) st
    else st
  serialLine "GROUP_SET" st

/-- `processCommand(cmd)`; `now` is the value `millis()` would return in the
`START_CYCLE` branch. -/
def processCommand (cmd : String) (now : Nat) (st : Sys) : Sys :=
  if cmd = "ARM" then
    serialLine "ACK_ARMED" { st with currentState := .armed }
  else if cmd = "DISARM" then
    serialLine "ACK_DISARMED" (allLEDsOff { st with currentState := .idle })
  else if cmd = "START_CYCLE" then
    if st.currentState = .armed then
      serialLine "CYCLE_STARTED"
        { st with currentState := .cycling, currentPhaseIndex := 0,
                  cycleStartTime := now % M32 }
    else st
  else if cmd = "STOP_CYCLE" then
    serialLine "CYCLE_STOPPED" { st with currentState := .armed }
  else if strStarts cmd "LOAD_PATTERN:" then
    let idx := toU8 (toIntS ⟨cmd.data.drop 13⟩)
    if idx < PATTERN_COUNT then
      let p := PROVEN_PATTERNS.getD idx (AttackPattern.mk "" 0 [] 0)
      serialLine ("PATTERN_LOADED:" ++ p.name) { st with currentPattern := p }
    else st
  else if strStarts cmd "SET_GROUP:" then
    setGroupBranch cmd st
  else if cmd = "EMERGENCY" then
    emergencyHandler st
  else if cmd = "GET_STATUS" then
    serialLine ("\x7b\"state\":" ++ Nat.repr (stateCode st.currentState) ++
      ",\"safety\":" ++ (if st.safetyEngaged then "1" else "0") ++
      ",\"armed\":" ++ (if st.currentState = .idle then "0" else "1") ++
      ",\"cycle\":" ++ Nat.repr st.globalCycleCount ++
      ",\"platform\":\"STM32\"\x7d") st
  else if cmd = "IDENTIFY" then
    serialLine "IRWP_STM32_v2.5" st
  else if cmd = "ALL_OFF" then
    allLEDsOff st
  else st

/-- `processSerialCommand()`: one optional pending line, trimmed, dispatched. -/
def processSerialCommand (line : Option String) (now : Nat) (st : Sys) : Sys :=
  match line with
  | none => st
  | some l => processCommand (trimS l) now st

/-- `uint32_t` difference `now - cycleStartTime` (wrapping subtraction). -/
def elapsed32 (now start : Nat) : Nat := (now % M32 + M32 - start % M32) % M32

/-- `executeCurrentPhase()`. -/
def executeCurrentPhase (st : Sys) : Sys :=
  let phase := st.currentPattern.phases.getD st.currentPhaseIndex zeroPhase
  setLEDGroup phase.ledGroup phase.intensity st

/-- `processAutonomousCycle()`; `now` is `millis()` for this call. -/
def processAutonomousCycle (now : Nat) (st : Sys) : Sys :=
  if st.currentState = .cycling then
    if elapsed32 now st.cycleStartTime ≥
        (st.currentPattern.phases.getD st.currentPhaseIndex zeroPhase).durationMs then
      let st := executeCurrentPhase st
      let idx := (st.currentPhaseIndex + 1) % 256
      let st := { st with currentPhaseIndex := idx }
      let st :=
        if idx ≥ st.currentPattern.phaseCount then
          let st := { st with currentPhaseIndex := 0,
                              globalCycleCount := (st.globalCycleCount + 1) % M32 }
          serialLine ("CYCLE_COMPLETE:" ++ Nat.repr st.globalCycleCount) st
        else st
      { st with cycleStartTime := now % M32 }
    else st
  else st

/-- One pass of `loop()`: sample the interlock, take the emergency/interlock
gate, else process a pending command line and run one autonomous-cycle tick. -/
def loopIter (st : Sys) (safetyLow : Bool) (line : Option String) (now : Nat) : Sys :=
  let st := { st with safetyEngaged := safetyLow }
  if st.emergencyTriggered || !st.safetyEngaged then
    if st.currentState ≠ .idle then emergencyHandler st else st
  else
    let st := processSerialCommand line now st
    if st.halted then st else processAutonomousCycle now st

/-- An event of the main-loop world: either the asynchronous emergency interrupt
fires, or one loop iteration runs with given interlock reading, optional pending
serial line, and `millis()` value. -/
inductive Ev where
  | isr
  | iter (safetyLow : Bool) (line : Option String) (now : Nat)
deriving DecidableEq, Repr

/-- Apply one event.  A halted system (inside `emergencyHandler`'s alert loop)
no longer reacts to anything. -/
def step (st : Sys) (ev : Ev) : Sys :=
  if st.halted then st
  else
    match ev with
    | .isr => emergencyISR st
    | .iter s l n => loopIter st s l n

/-- Run a finite event interleaving. -/
def run (st : Sys) (evs : List Ev) : Sys := evs.foldl step st

/-- The state after `setup()`: IDLE, flags clear, outputs LOW, with
`currentPattern` the record `EEPROM.get(128, currentPattern)` produced (an
arbitrary, unvalidated pattern `pe`). -/
def initSys (pe : AttackPattern) : Sys :=
  { currentState := .idle, safetyEngaged := false, emergencyTriggered := false,
    currentPattern := pe, currentPhaseIndex := 0, cycleStartTime := 0,
    globalCycleCount := 0, hat := 0, hoodie := 0, pants := 0, shoes := 0,
    relay := 0, statusLed := 0, pinLog := [], serialOut := [], halted := false }

/-- The four digital writes of one `flickerAll` loop iteration. -/
def flickerStepWrites (intensity i : Nat) : List PinWrite :=
  [ PinWrite.digital .hat (lvlOf ((i % 2) * intensity)),
    PinWrite.digital .hoodie (lvlOf (((i + 1) % 2) * intensity)),
    PinWrite.digital .pants (lvlOf (((i + 2) % 2) * intensity)),
    PinWrite.digital .shoes (lvlOf (((i + 3) % 2) * intensity)) ]

/-- All 200 digital writes `flickerAll` performs. -/
def flickerWrites (intensity : Nat) : List PinWrite :=
  (List.range 50).flatMap (flickerStepWrites intensity)

/-- The exact sequence of pin writes `setLEDGroup` performs: the relay first, then
the selected channel writes. -/
def groupWrites (g i : Nat) : List PinWrite :=
  PinWrite.digital .relay 1 ::
  (if g = 0 then [PinWrite.analog .hat (i % 256)]
   else if g = 1 then [PinWrite.analog .hoodie (i % 256)]
   else if g = 2 then [PinWrite.analog .pants (i % 256)]
   else if g = 3 then [PinWrite.analog .shoes (i % 256)]
   else if g = 4 then
     [PinWrite.analog .hat (i % 256), PinWrite.analog .hoodie (i % 256),
      PinWrite.analog .pants (i % 256), PinWrite.analog .shoes (i % 256)]
   else if g = 5 then flickerWrites i
   else [])

/-- A line matching none of the recognized command forms. -/
def Unrecognized (cmd : String) : Prop :=
  cmd ≠ "ARM" ∧ cmd ≠ "DISARM" ∧ cmd ≠ "START_CYCLE" ∧ cmd ≠ "STOP_CYCLE" ∧
  strStarts cmd "LOAD_PATTERN:" = false ∧ strStarts cmd "SET_GROUP:" = false ∧
  cmd ≠ "EMERGENCY" ∧ cmd ≠ "GET_STATUS" ∧ cmd ≠ "IDENTIFY" ∧ cmd ≠ "ALL_OFF"

instance (cmd : String) : Decidable (Unrecognized cmd) := by
  unfold Unrecognized
  infer_instance

/-- Concrete two-phase pattern (durations 50 ms / 50 ms) standing for the
persisted pattern `setup()` reads from EEPROM. -/
def twoPhasePattern : AttackPattern :=
  ⟨"TwoPhase", 2, padPhases [⟨0,50,100⟩, ⟨1,50,200⟩], 1⟩

/-- Concrete persisted pattern with a zero-duration phase. -/
def zeroDurPattern : AttackPattern :=
  ⟨"ZeroDur", 1, padPhases [⟨0,0,255⟩], 1⟩

/-- Concrete persisted pattern with no phases. -/
def emptyPattern : AttackPattern :=
  ⟨"Empty", 0, padPhases [], 0⟩

/-- The four state-machine commands of the §4.2 table. -/
inductive Cmd4 where
  | arm
  | disarm
  | startCycle
  | stopCycle
deriving DecidableEq, Repr

/-- Wire form of a state-machine command. -/
def cmd4Str : Cmd4 → String
  | .arm => "ARM"
  | .disarm => "DISARM"
  | .startCycle => "START_CYCLE"
  | .stopCycle => "STOP_CYCLE"

/-- A loop iteration receiving one state-machine command, interlock engaged. -/
def cmd4Ev (c : Cmd4) : Ev := Ev.iter true (some (cmd4Str c)) 0

/-- Modelled from the spec: the §4.2 transition table (interlock engaged, no
emergency): ARM moves Idle to Armed only, DISARM moves Armed to Idle,
START moves Armed to Cycling, STOP moves Cycling to Armed; a command whose
from-state does not match leaves the state unchanged. -/
def tableStep : SState → Cmd4 → SState
  | .idle, .arm => .armed
  | .armed, .disarm => .idle
  | .armed, .startCycle => .cycling
  | .cycling, .stopCycle => .armed
  | s, _ => s

/-- Replay of the §4.2 table from Idle. -/
def tableReplay (cmds : List Cmd4) : SState := cmds.foldl tableStep .idle

/-- The transition function the code implements: ARM, DISARM and STOP_CYCLE are
unguarded; only START_CYCLE checks its from-state. -/
def codeStep4 (s : SState) : Cmd4 → SState
  | .arm => .armed
  | .disarm => .idle
  | .startCycle => if s = .armed then .cycling else s
  | .stopCycle => .armed

/-- The armed-then-latched state used as a concrete witness input. -/
def armedLatchedSt : Sys :=
  run (initSys twoPhasePattern) [Ev.iter true (some "ARM") 0, Ev.isr]

/-- A concrete Cycling state (armed then started, clock at 0). -/
def cyclingSt : Sys :=
  run (initSys twoPhasePattern) [Ev.iter true (some "ARM") 0, Ev.iter true (some "START_CYCLE") 0]

/-- A state three ticks into cycling the two-phase pattern, with one completed
cycle (phase index 1, cycle count 1). -/
def midCycleSt : Sys :=
  run (initSys twoPhasePattern)
    [Ev.iter true (some "ARM") 0, Ev.iter true (some "START_CYCLE") 0,
     Ev.iter true none 50, Ev.iter true none 100, Ev.iter true none 150]

/-- The C4 example schedule: arm, start, then a tick every 10 ms for 220 ms. -/
def c4Events : List Ev :=
  [Ev.iter true (some "ARM") 0, Ev.iter true (some "START_CYCLE") 0] ++
  (List.range 22).map (fun k => Ev.iter true none ((k + 1) * 10))

/-- The loop events that reach `allLEDsOff` (and may thus drive the relay LOW):
an iteration taken with the emergency latch set or the interlock reading
disengaged, or one whose trimmed pending line is DISARM, ALL_OFF or EMERGENCY. -/
def RelayOffEvent (st : Sys) (ev : Ev) : Prop :=
  ∃ s l n, ev = Ev.iter s l n ∧
    (st.emergencyTriggered = true ∨ s = false ∨
     l.map trimS = some "DISARM" ∨ l.map trimS = some "ALL_OFF" ∨
     l.map trimS = some "EMERGENCY")

/-- The cursor invariant maintained by every reachable state: the current
pattern fills its 20-slot array and declares at most 20 phases, and the phase
index is either inside the active range (or 0 when the pattern has no phases),
or — after a pattern swap mid-cycle — still below 20 but pointing at a
zero-duration slot, which the next tick immediately consumes and wraps. -/
def CursorInv (st : Sys) : Prop :=
  st.currentPattern.phases.length = 20 ∧
  st.currentPattern.phaseCount ≤ 20 ∧
  (st.currentPhaseIndex < max st.currentPattern.phaseCount 1 ∨
   (st.currentPhaseIndex < 20 ∧
    (st.currentPattern.phases.getD st.currentPhaseIndex zeroPhase).durationMs = 0))

/-! ## Shared frame lemmas for the output driver -/

/-- Control-state equality: the fields the output driver never touches. -/
def CtrlEq (a b : Sys) : Prop :=
  a.currentState = b.currentState ∧ a.safetyEngaged = b.safetyEngaged ∧
  a.emergencyTriggered = b.emergencyTriggered ∧ a.currentPattern = b.currentPattern ∧
  a.currentPhaseIndex = b.currentPhaseIndex ∧ a.cycleStartTime = b.cycleStartTime ∧
  a.globalCycleCount = b.globalCycleCount ∧ a.halted = b.halted

theorem ctrlEq_refl (a : Sys) : CtrlEq a a :=
  ⟨rfl, rfl, rfl, rfl, rfl, rfl, rfl, rfl⟩

theorem ctrlEq_trans {a b c : Sys} (h1 : CtrlEq a b) (h2 : CtrlEq b c) : CtrlEq a c := by
  obtain ⟨x1, x2, x3, x4, x5, x6, x7, x8⟩ := h1
  obtain ⟨y1, y2, y3, y4, y5, y6, y7, y8⟩ := h2
  exact ⟨x1.trans y1, x2.trans y2, x3.trans y3, x4.trans y4,
         x5.trans y5, x6.trans y6, x7.trans y7, x8.trans y8⟩

theorem digWrite_ctrl (p : Pin) (v : Nat) (st : Sys) : CtrlEq (digWrite p v st) st := by
  cases p <;> exact ⟨rfl, rfl, rfl, rfl, rfl, rfl, rfl, rfl⟩

theorem anaWrite_ctrl (p : Pin) (v : Nat) (st : Sys) : CtrlEq (anaWrite p v st) st := by
  cases p <;> exact ⟨rfl, rfl, rfl, rfl, rfl, rfl, rfl, rfl⟩

theorem serialLine_ctrl (s : String) (st : Sys) : CtrlEq (serialLine s st) st :=
  ⟨rfl, rfl, rfl, rfl, rfl, rfl, rfl, rfl⟩

theorem allLEDsOff_ctrl (st : Sys) : CtrlEq (allLEDsOff st) st := by
  unfold allLEDsOff
  exact ctrlEq_trans (digWrite_ctrl _ _ _) (ctrlEq_trans (digWrite_ctrl _ _ _)
    (ctrlEq_trans (digWrite_ctrl _ _ _) (ctrlEq_trans (digWrite_ctrl _ _ _)
      (digWrite_ctrl _ _ _))))

theorem flickerStep_ctrl (intensity i : Nat) (st : Sys) :
    CtrlEq (flickerStep intensity i st) st := by
  unfold flickerStep
  exact ctrlEq_trans (digWrite_ctrl _ _ _) (ctrlEq_trans (digWrite_ctrl _ _ _)
    (ctrlEq_trans (digWrite_ctrl _ _ _) (digWrite_ctrl _ _ _)))

theorem flickerFold_ctrl (intensity : Nat) (l : List Nat) :
    ∀ st : Sys, CtrlEq (l.foldl (fun s i => flickerStep intensity i s) st) st := by
  induction l with
  | nil => exact fun st => ctrlEq_refl st
  | cons a l ih =>
      intro st
      exact ctrlEq_trans (ih (flickerStep intensity a st)) (flickerStep_ctrl intensity a st)

theorem flickerAll_ctrl (intensity : Nat) (st : Sys) : CtrlEq (flickerAll intensity st) st :=
  flickerFold_ctrl intensity (List.range 50) st

theorem setLEDGroup_ctrl (g i : Nat) (st : Sys) : CtrlEq (setLEDGroup g i st) st := by
  unfold setLEDGroup
  split_ifs
  · exact ctrlEq_trans (anaWrite_ctrl _ _ _) (digWrite_ctrl _ _ _)
  · exact ctrlEq_trans (anaWrite_ctrl _ _ _) (digWrite_ctrl _ _ _)
  · exact ctrlEq_trans (anaWrite_ctrl _ _ _) (digWrite_ctrl _ _ _)
  · exact ctrlEq_trans (anaWrite_ctrl _ _ _) (digWrite_ctrl _ _ _)
  · exact ctrlEq_trans (anaWrite_ctrl _ _ _) (ctrlEq_trans (anaWrite_ctrl _ _ _)
      (ctrlEq_trans (anaWrite_ctrl _ _ _) (ctrlEq_trans (anaWrite_ctrl _ _ _)
        (digWrite_ctrl _ _ _))))
  · exact ctrlEq_trans (flickerAll_ctrl _ _) (digWrite_ctrl _ _ _)
  · exact digWrite_ctrl _ _ _

theorem executeCurrentPhase_ctrl (st : Sys) : CtrlEq (executeCurrentPhase st) st :=
  setLEDGroup_ctrl _ _ st

/-! ## Pin-write log lemmas -/

theorem digWrite_pinLog (p : Pin) (v : Nat) (st : Sys) :
    (digWrite p v st).pinLog = st.pinLog ++ [PinWrite.digital p (lvlOf v)] := by
  cases p <;> rfl

theorem anaWrite_pinLog (p : Pin) (v : Nat) (st : Sys) :
    (anaWrite p v st).pinLog = st.pinLog ++ [PinWrite.analog p (v % 256)] := by
  cases p <;> rfl

theorem serialLine_pinLog (s : String) (st : Sys) : (serialLine s st).pinLog = st.pinLog :=
  rfl

theorem flickerStep_pinLog (intensity i : Nat) (st : Sys) :
    (flickerStep intensity i st).pinLog = st.pinLog ++ flickerStepWrites intensity i := by
  unfold flickerStep flickerStepWrites
  rw [digWrite_pinLog, digWrite_pinLog, digWrite_pinLog, digWrite_pinLog]
  simp [List.append_assoc]

theorem flickerFold_pinLog (intensity : Nat) (l : List Nat) :
    ∀ st : Sys, ((l.foldl (fun s i => flickerStep intensity i s) st).pinLog =
      st.pinLog ++ l.flatMap (flickerStepWrites intensity)) := by
  induction l with
  | nil => intro st; simp
  | cons a l ih =>
      intro st
      rw [List.foldl_cons, ih (flickerStep intensity a st), flickerStep_pinLog]
      simp [List.append_assoc]

theorem flickerAll_pinLog (intensity : Nat) (st : Sys) :
    (flickerAll intensity st).pinLog = st.pinLog ++ flickerWrites intensity :=
  flickerFold_pinLog intensity (List.range 50) st

theorem setLEDGroup_pinLog (g i : Nat) (st : Sys) :
    (setLEDGroup g i st).pinLog = st.pinLog ++ groupWrites g i := by
  unfold setLEDGroup groupWrites
  split_ifs
  · rw [anaWrite_pinLog, digWrite_pinLog]; simp [lvlOf]
  · rw [anaWrite_pinLog, digWrite_pinLog]; simp [lvlOf]
  · rw [anaWrite_pinLog, digWrite_pinLog]; simp [lvlOf]
  · rw [anaWrite_pinLog, digWrite_pinLog]; simp [lvlOf]
  · rw [anaWrite_pinLog, anaWrite_pinLog, anaWrite_pinLog, anaWrite_pinLog,
      digWrite_pinLog]
    simp [lvlOf]
  · rw [flickerAll_pinLog, digWrite_pinLog]; simp [lvlOf]
  · rw [digWrite_pinLog]; simp [lvlOf]

/-! ## Relay and channel register lemmas -/

theorem digWrite_relay_other (p : Pin) (v : Nat) (st : Sys) (h : p ≠ Pin.relay) :
    (digWrite p v st).relay = st.relay := by
  cases p <;> first | rfl | exact absurd rfl h

theorem anaWrite_relay_other (p : Pin) (v : Nat) (st : Sys) (h : p ≠ Pin.relay) :
    (anaWrite p v st).relay = st.relay := by
  cases p <;> first | rfl | exact absurd rfl h

theorem flickerFold_relay (intensity : Nat) (l : List Nat) :
    ∀ st : Sys, (l.foldl (fun s i => flickerStep intensity i s) st).relay = st.relay := by
  induction l with
  | nil => intro st; rfl
  | cons a l ih =>
      intro st
      rw [List.foldl_cons, ih]
      unfold flickerStep
      rw [digWrite_relay_other _ _ _ (by simp), digWrite_relay_other _ _ _ (by simp),
        digWrite_relay_other _ _ _ (by simp), digWrite_relay_other _ _ _ (by simp)]

theorem setLEDGroup_relay (g i : Nat) (st : Sys) : (setLEDGroup g i st).relay = 1 := by
  unfold setLEDGroup
  have hbase : (digWrite .relay 1 st).relay = 1 := rfl
  split_ifs
  · rw [anaWrite_relay_other _ _ _ (by simp), hbase]
  · rw [anaWrite_relay_other _ _ _ (by simp), hbase]
  · rw [anaWrite_relay_other _ _ _ (by simp), hbase]
  · rw [anaWrite_relay_other _ _ _ (by simp), hbase]
  · rw [anaWrite_relay_other _ _ _ (by simp), anaWrite_relay_other _ _ _ (by simp),
      anaWrite_relay_other _ _ _ (by simp), anaWrite_relay_other _ _ _ (by simp), hbase]
  · rw [flickerAll, flickerFold_relay, hbase]
  · exact hbase

theorem setLEDGroup_channels_other (g i : Nat) (st : Sys) (h : 6 ≤ g) :
    (setLEDGroup g i st).hat = st.hat ∧ (setLEDGroup g i st).hoodie = st.hoodie ∧
    (setLEDGroup g i st).pants = st.pants ∧ (setLEDGroup g i st).shoes = st.shoes := by
  unfold setLEDGroup
  rw [if_neg (by omega), if_neg (by omega), if_neg (by omega), if_neg (by omega),
    if_neg (by omega), if_neg (by omega)]
  exact ⟨rfl, rfl, rfl, rfl⟩

theorem serialLine_relay (s : String) (st : Sys) : (serialLine s st).relay = st.relay := rfl

theorem allLEDsOff_relay (st : Sys) : (allLEDsOff st).relay = 0 := by
  unfold allLEDsOff
  rfl

theorem allLEDsOff_channels (st : Sys) :
    (allLEDsOff st).hat = 0 ∧ (allLEDsOff st).hoodie = 0 ∧
    (allLEDsOff st).pants = 0 ∧ (allLEDsOff st).shoes = 0 :=
  ⟨rfl, rfl, rfl, rfl⟩

theorem emergencyHandler_spec (st : Sys) :
    (emergencyHandler st).currentState = SState.emergency ∧
    (emergencyHandler st).emergencyTriggered = true ∧
    (emergencyHandler st).halted = true ∧
    (emergencyHandler st).hat = 0 ∧ (emergencyHandler st).hoodie = 0 ∧
    (emergencyHandler st).pants = 0 ∧ (emergencyHandler st).shoes = 0 ∧
    (emergencyHandler st).relay = 0 ∧
    (emergencyHandler st).currentPhaseIndex = st.currentPhaseIndex ∧
    (emergencyHandler st).currentPattern = st.currentPattern ∧
    (emergencyHandler st).globalCycleCount = st.globalCycleCount ∧
    (emergencyHandler st).safetyEngaged = st.safetyEngaged :=
  ⟨rfl, rfl, rfl, rfl, rfl, rfl, rfl, rfl, rfl, rfl, rfl, rfl⟩

/-! ## `processCommand` branch equations -/

theorem pc_arm (n : Nat) (st : Sys) :
    processCommand "ARM" n st = serialLine "ACK_ARMED" { st with currentState := .armed } :=
  rfl

theorem pc_disarm (n : Nat) (st : Sys) :
    processCommand "DISARM" n st =
      serialLine "ACK_DISARMED" (allLEDsOff { st with currentState := .idle }) :=
  rfl

theorem pc_start (n : Nat) (st : Sys) :
    processCommand "START_CYCLE" n st =
      if st.currentState = .armed then
        serialLine "CYCLE_STARTED"
          { st with currentState := .cycling, currentPhaseIndex := 0,
                    cycleStartTime := n % M32 }
      else st :=
  rfl

theorem pc_stop (n : Nat) (st : Sys) :
    processCommand "STOP_CYCLE" n st =
      serialLine "CYCLE_STOPPED" { st with currentState := .armed } :=
  rfl

theorem pc_emergency (n : Nat) (st : Sys) :
    processCommand "EMERGENCY" n st = emergencyHandler st :=
  rfl

theorem pc_allOff (n : Nat) (st : Sys) :
    processCommand "ALL_OFF" n st = allLEDsOff st :=
  rfl

theorem pc_identify (n : Nat) (st : Sys) :
    processCommand "IDENTIFY" n st = serialLine "IRWP_STM32_v2.5" st :=
  rfl

theorem pc_load99 (n : Nat) (st : Sys) :
    processCommand "LOAD_PATTERN:99" n st = st :=
  rfl

/-- The load branch for each in-range catalog index: unconditional replacement of
`currentPattern` plus the acceptance acknowledgement; the cursor fields are untouched. -/
theorem pc_load_inrange (n : Nat) (st : Sys) :
    processCommand "LOAD_PATTERN:0" n st =
      serialLine "PATTERN_LOADED:AGC_Lock_5_Second"
        { st with currentPattern := PROVEN_PATTERNS.getD 0 (AttackPattern.mk "" 0 [] 0) } ∧
    processCommand "LOAD_PATTERN:1" n st =
      serialLine "PATTERN_LOADED:Sensor_Saturation_Blast"
        { st with currentPattern := PROVEN_PATTERNS.getD 1 (AttackPattern.mk "" 0 [] 0) } ∧
    processCommand "LOAD_PATTERN:2" n st =
      serialLine "PATTERN_LOADED:Rolling_Shutter_Flicker"
        { st with currentPattern := PROVEN_PATTERNS.getD 2 (AttackPattern.mk "" 0 [] 0) } :=
  ⟨rfl, rfl, rfl⟩

theorem pc_unrecognized (cmd : String) (n : Nat) (st : Sys) (h : Unrecognized cmd) :
    processCommand cmd n st = st := by
  obtain ⟨h1, h2, h3, h4, h5, h6, h7, h8, h9, h10⟩ := h
  unfold processCommand
  rw [if_neg h1, if_neg h2, if_neg h3, if_neg h4]
  rw [if_neg (by simp [h5]), if_neg (by simp [h6])]
  rw [if_neg h7, if_neg h8, if_neg h9, if_neg h10]

/-! ## Gate and step lemmas for the main loop -/

theorem step_halted (st : Sys) (ev : Ev) (h : st.halted = true) : step st ev = st := by
  unfold step
  rw [if_pos h]

theorem step_gate (st : Sys) (s : Bool) (l : Option String) (n : Nat)
    (hh : st.halted = false)
    (hcond : st.emergencyTriggered = true ∨ s = false) :
    step st (Ev.iter s l n) =
      (if st.currentState ≠ .idle then emergencyHandler { st with safetyEngaged := s }
       else { st with safetyEngaged := s }) := by
  have hc : (st.emergencyTriggered || !s) = true := by
    rcases hcond with h | h <;> simp [h]
  simp [step, loopIter, hh, hc]

theorem step_run (st : Sys) (l : Option String) (n : Nat)
    (hh : st.halted = false) (he : st.emergencyTriggered = false) :
    step st (Ev.iter true l n) =
      (let st1 := processSerialCommand l n { st with safetyEngaged := true }
       if st1.halted then st1 else processAutonomousCycle n st1) := by
  simp [step, loopIter, hh, he]

/-! ## `processAutonomousCycle` lemmas -/

theorem pac_notCycling (now : Nat) (st : Sys) (h : st.currentState ≠ .cycling) :
    processAutonomousCycle now st = st := by
  unfold processAutonomousCycle
  rw [if_neg h]

theorem pac_noFire (now : Nat) (st : Sys) (h : st.currentState = .cycling)
    (hlt : elapsed32 now st.cycleStartTime <
      (st.currentPattern.phases.getD st.currentPhaseIndex zeroPhase).durationMs) :
    processAutonomousCycle now st = st := by
  unfold processAutonomousCycle
  rw [if_pos h, if_neg (by omega)]

theorem executeCurrentPhase_pinLog (st : Sys) :
    (executeCurrentPhase st).pinLog = st.pinLog ++
      groupWrites (st.currentPattern.phases.getD st.currentPhaseIndex zeroPhase).ledGroup
        (st.currentPattern.phases.getD st.currentPhaseIndex zeroPhase).intensity :=
  setLEDGroup_pinLog _ _ st

/-- The firing branch of `processAutonomousCycle`: the current phase's output is
applied (exactly the `setLEDGroup` writes appear once in the log), the cursor
advances with wrap-around and cycle counting, and the phase start time is reset. -/
theorem pac_fire (now : Nat) (st : Sys) (h : st.currentState = .cycling)
    (hge : elapsed32 now st.cycleStartTime ≥
      (st.currentPattern.phases.getD st.currentPhaseIndex zeroPhase).durationMs) :
    (processAutonomousCycle now st).pinLog = st.pinLog ++
      groupWrites (st.currentPattern.phases.getD st.currentPhaseIndex zeroPhase).ledGroup
        (st.currentPattern.phases.getD st.currentPhaseIndex zeroPhase).intensity ∧
    (processAutonomousCycle now st).cycleStartTime = now % M32 ∧
    (processAutonomousCycle now st).currentState = st.currentState ∧
    (processAutonomousCycle now st).currentPattern = st.currentPattern ∧
    (processAutonomousCycle now st).halted = st.halted ∧
    (processAutonomousCycle now st).emergencyTriggered = st.emergencyTriggered ∧
    (processAutonomousCycle now st).safetyEngaged = st.safetyEngaged ∧
    (if (st.currentPhaseIndex + 1) % 256 ≥ st.currentPattern.phaseCount then
       (processAutonomousCycle now st).currentPhaseIndex = 0 ∧
       (processAutonomousCycle now st).globalCycleCount = (st.globalCycleCount + 1) % M32
     else
       (processAutonomousCycle now st).currentPhaseIndex = (st.currentPhaseIndex + 1) % 256 ∧
       (processAutonomousCycle now st).globalCycleCount = st.globalCycleCount) := by
  obtain ⟨e1, e2, e3, e4, e5, e6, e7, e8⟩ := executeCurrentPhase_ctrl st
  have epin := executeCurrentPhase_pinLog st
  unfold processAutonomousCycle
  rw [if_pos h, if_pos hge]
  simp only [e4, e5]
  by_cases hw : (st.currentPhaseIndex + 1) % 256 ≥ st.currentPattern.phaseCount
  · rw [if_pos hw, if_pos hw]
    refine ⟨?_, ?_, ?_, ?_, ?_, ?_, ?_, ?_, ?_⟩ <;>
      simp [serialLine, epin, e1, e2, e3, e4, e7, e8, h]
  · rw [if_neg hw, if_neg hw]
    refine ⟨?_, ?_, ?_, ?_, ?_, ?_, ?_, ?_, ?_⟩ <;>
      simp [serialLine, epin, e1, e2, e3, e4, e7, e8, h]

/-- `processAutonomousCycle` never changes the control fields. -/
theorem pac_preserves (now : Nat) (st : Sys) :
    (processAutonomousCycle now st).currentState = st.currentState ∧
    (processAutonomousCycle now st).safetyEngaged = st.safetyEngaged ∧
    (processAutonomousCycle now st).emergencyTriggered = st.emergencyTriggered ∧
    (processAutonomousCycle now st).currentPattern = st.currentPattern ∧
    (processAutonomousCycle now st).halted = st.halted := by
  by_cases h : st.currentState = .cycling
  · by_cases hge : elapsed32 now st.cycleStartTime ≥
        (st.currentPattern.phases.getD st.currentPhaseIndex zeroPhase).durationMs
    · obtain ⟨_, _, a3, a4, a5, a6, a7, _⟩ := pac_fire now st h hge
      exact ⟨a3, a7, a6, a4, a5⟩
    · rw [pac_noFire now st h (by omega)]
      exact ⟨rfl, rfl, rfl, rfl, rfl⟩
  · rw [pac_notCycling now st h]
    exact ⟨rfl, rfl, rfl, rfl, rfl⟩

/-- If the command-processing stage of a clear-flag iteration produces `Y` and
`Y` is not halted, the iteration is exactly one autonomous-cycle tick on `Y`. -/
theorem step_run_proj (st : Sys) (l : Option String) (n : Nat)
    (hh : st.halted = false) (he : st.emergencyTriggered = false)
    (Y : Sys) (hY : processSerialCommand l n { st with safetyEngaged := true } = Y)
    (hYh : Y.halted = false) :
    step st (Ev.iter true l n) = processAutonomousCycle n Y := by
  rw [step_run st l n hh he]
  simp [hY, hYh]

/-- Effect of one loop iteration carrying one state-machine command on the
control fields, under clear flags: the state moves by `codeStep4`. -/
theorem cmd4_step_state (st : Sys) (c : Cmd4)
    (hh : st.halted = false) (he : st.emergencyTriggered = false) :
    (step st (cmd4Ev c)).currentState = codeStep4 st.currentState c ∧
    (step st (cmd4Ev c)).halted = false ∧
    (step st (cmd4Ev c)).emergencyTriggered = false := by
  cases c
  case arm =>
    have hY : processSerialCommand (some "ARM") 0 { st with safetyEngaged := true } =
        serialLine "ACK_ARMED" { st with safetyEngaged := true, currentState := .armed } := rfl
    have hYh : (serialLine "ACK_ARMED"
        { st with safetyEngaged := true, currentState := .armed }).halted = false := hh
    have hs := step_run_proj st (some "ARM") 0 hh he _ hY hYh
    simp only [cmd4Ev, cmd4Str]
    rw [hs]
    obtain ⟨p1, _, p3, _, p5⟩ := pac_preserves 0
      (serialLine "ACK_ARMED" { st with safetyEngaged := true, currentState := .armed })
    rw [p1, p3, p5]
    exact ⟨rfl, hh, he⟩
  case disarm =>
    have hY : processSerialCommand (some "DISARM") 0 { st with safetyEngaged := true } =
        serialLine "ACK_DISARMED"
          (allLEDsOff { st with safetyEngaged := true, currentState := .idle }) := rfl
    have hYh : (serialLine "ACK_DISARMED"
        (allLEDsOff { st with safetyEngaged := true, currentState := .idle })).halted =
        false := hh
    have hs := step_run_proj st (some "DISARM") 0 hh he _ hY hYh
    simp only [cmd4Ev, cmd4Str]
    rw [hs]
    obtain ⟨p1, _, p3, _, p5⟩ := pac_preserves 0
      (serialLine "ACK_DISARMED"
        (allLEDsOff { st with safetyEngaged := true, currentState := .idle }))
    rw [p1, p3, p5]
    exact ⟨rfl, hh, he⟩
  case startCycle =>
    by_cases ha : st.currentState = .armed
    · have ha' : ({ st with safetyEngaged := true } : Sys).currentState = SState.armed := ha
      have hY : processSerialCommand (some "START_CYCLE") 0 { st with safetyEngaged := true } =
          serialLine "CYCLE_STARTED"
            { st with safetyEngaged := true, currentState := .cycling,
                      currentPhaseIndex := 0, cycleStartTime := 0 % M32 } := by
        show processCommand "START_CYCLE" 0 { st with safetyEngaged := true } = _
        rw [pc_start, if_pos ha']
      have hYh : (serialLine "CYCLE_STARTED"
          { st with safetyEngaged := true, currentState := .cycling,
                    currentPhaseIndex := 0, cycleStartTime := 0 % M32 }).halted = false := hh
      have hs := step_run_proj st (some "START_CYCLE") 0 hh he _ hY hYh
      simp only [cmd4Ev, cmd4Str]
      rw [hs]
      obtain ⟨p1, _, p3, _, p5⟩ := pac_preserves 0
        (serialLine "CYCLE_STARTED"
          { st with safetyEngaged := true, currentState := .cycling,
                    currentPhaseIndex := 0, cycleStartTime := 0 % M32 })
      rw [p1, p3, p5]
      refine ⟨?_, hh, he⟩
      show SState.cycling = codeStep4 st.currentState Cmd4.startCycle
      simp [codeStep4, ha]
    · have ha' : ¬ ({ st with safetyEngaged := true } : Sys).currentState = SState.armed := ha
      have hY : processSerialCommand (some "START_CYCLE") 0 { st with safetyEngaged := true } =
          { st with safetyEngaged := true } := by
        show processCommand "START_CYCLE" 0 { st with safetyEngaged := true } = _
        rw [pc_start, if_neg ha']
      have hYh : ({ st with safetyEngaged := true } : Sys).halted = false := hh
      have hs := step_run_proj st (some "START_CYCLE") 0 hh he _ hY hYh
      simp only [cmd4Ev, cmd4Str]
      rw [hs]
      obtain ⟨p1, _, p3, _, p5⟩ := pac_preserves 0 { st with safetyEngaged := true }
      rw [p1, p3, p5]
      refine ⟨?_, hh, he⟩
      show st.currentState = codeStep4 st.currentState Cmd4.startCycle
      simp [codeStep4, ha]
  case stopCycle =>
    have hY : processSerialCommand (some "STOP_CYCLE") 0 { st with safetyEngaged := true } =
        serialLine "CYCLE_STOPPED" { st with safetyEngaged := true, currentState := .armed } :=
      rfl
    have hYh : (serialLine "CYCLE_STOPPED"
        { st with safetyEngaged := true, currentState := .armed }).halted = false := hh
    have hs := step_run_proj st (some "STOP_CYCLE") 0 hh he _ hY hYh
    simp only [cmd4Ev, cmd4Str]
    rw [hs]
    obtain ⟨p1, _, p3, _, p5⟩ := pac_preserves 0
      (serialLine "CYCLE_STOPPED" { st with safetyEngaged := true, currentState := .armed })
    rw [p1, p3, p5]
    exact ⟨rfl, hh, he⟩

/-! ## Claim theorems -/

/-- **C8**: `emergencyISR` (the `markEmergency` trigger) only sets the latched
emergency flag to true and returns: every other state component — system state,
pattern, cursor, cycle count, all output registers, the pin-write log (no
output-driver writes) and the serial log (no command-channel I/O) — is
unchanged, in every program state. -/
theorem c8_isr_frame (st : Sys) :
    (emergencyISR st).emergencyTriggered = true ∧
    (emergencyISR st).currentState = st.currentState ∧
    (emergencyISR st).safetyEngaged = st.safetyEngaged ∧
    (emergencyISR st).currentPattern = st.currentPattern ∧
    (emergencyISR st).currentPhaseIndex = st.currentPhaseIndex ∧
    (emergencyISR st).cycleStartTime = st.cycleStartTime ∧
    (emergencyISR st).globalCycleCount = st.globalCycleCount ∧
    (emergencyISR st).hat = st.hat ∧
    (emergencyISR st).hoodie = st.hoodie ∧
    (emergencyISR st).pants = st.pants ∧
    (emergencyISR st).shoes = st.shoes ∧
    (emergencyISR st).relay = st.relay ∧
    (emergencyISR st).statusLed = st.statusLed ∧
    (emergencyISR st).pinLog = st.pinLog ∧
    (emergencyISR st).serialOut = st.serialOut ∧
    (emergencyISR st).halted = st.halted :=
  ⟨rfl, rfl, rfl, rfl, rfl, rfl, rfl, rfl, rfl, rfl, rfl, rfl, rfl, rfl, rfl, rfl⟩

/-- **C1** counterexample: with the emergency latch set while in Idle, the next
loop iteration does *not* establish Emergency — the loop body returns without
calling the handler when `currentState == STATE_IDLE`, so the state stays Idle. -/
theorem c1_claim_counterexample :
    (run (initSys twoPhasePattern) [Ev.isr, Ev.iter true none 0]).emergencyTriggered = true ∧
    (run (initSys twoPhasePattern) [Ev.isr, Ev.iter true none 0]).currentState = SState.idle ∧
    SState.idle ≠ SState.emergency := by
  refine ⟨by decide, by decide, by decide⟩

/-- **C1** (amended): once the emergency latch is set, the very next loop
iteration establishes Emergency, all channel intensities 0, relay off and a
permanent halt — *from every starting state other than Idle*; the iteration's
outcome is independent of any pending command or clock value, and a halted
system ignores every further event, so no subsequent command changes the state.
From Idle the latch instead freezes the loop: the iteration changes nothing but
the sampled interlock flag (in particular no command is processed), and the
state remains Idle rather than Emergency. -/
theorem c1_emergency_latch (st : Sys) (s : Bool) (l : Option String) (n : Nat)
    (hh : st.halted = false) (he : st.emergencyTriggered = true) :
    (st.currentState ≠ SState.idle →
      (step st (Ev.iter s l n)).currentState = SState.emergency ∧
      (step st (Ev.iter s l n)).hat = 0 ∧
      (step st (Ev.iter s l n)).hoodie = 0 ∧
      (step st (Ev.iter s l n)).pants = 0 ∧
      (step st (Ev.iter s l n)).shoes = 0 ∧
      (step st (Ev.iter s l n)).relay = 0 ∧
      (step st (Ev.iter s l n)).halted = true) ∧
    (st.currentState = SState.idle →
      step st (Ev.iter s l n) = { st with safetyEngaged := s }) ∧
    step st (Ev.iter s l n) = step st (Ev.iter s none 0) ∧
    (∀ (st2 : Sys) (ev : Ev), st2.halted = true → step st2 ev = st2) := by
  have hg := step_gate st s l n hh (Or.inl he)
  have hg0 := step_gate st s none 0 hh (Or.inl he)
  refine ⟨?_, ?_, ?_, ?_⟩
  · intro hne
    rw [hg, if_pos hne]
    obtain ⟨a1, a2, a3, a4, a5, a6, a7, a8, _, _, _, _⟩ :=
      emergencyHandler_spec { st with safetyEngaged := s }
    exact ⟨a1, a4, a5, a6, a7, a8, a3⟩
  · intro hid
    rw [hg, if_neg (by simp [hid])]
  · rw [hg, hg0]
  · exact fun st2 ev h2 => step_halted st2 ev h2

/-- Witness for C1: a concrete armed-then-latched state where the next iteration
does reach Emergency and halt. -/
theorem c1_emergency_latch_witness :
    (step armedLatchedSt (Ev.iter true none 0)).currentState = SState.emergency ∧
    (step armedLatchedSt (Ev.iter true none 0)).halted = true :=
  ⟨((c1_emergency_latch armedLatchedSt true none 0 (by decide) (by decide)).1 (by decide)).1,
   ((c1_emergency_latch armedLatchedSt true none 0 (by decide) (by decide)).1
      (by decide)).2.2.2.2.2.2⟩

/-- **C2** counterexample: with the interlock reading disengaged while Cycling and
the emergency latch still false, the next loop iteration *does* force Emergency —
`loop()` calls `emergencyHandler()` whenever `!safetyEngaged` and the state is not
Idle, contradicting the claim that disengagement alone never forces Emergency. -/
theorem c2_claim_counterexample :
    cyclingSt.currentState = SState.cycling ∧
    cyclingSt.emergencyTriggered = false ∧
    (step cyclingSt (Ev.iter false none 10)).currentState = SState.emergency := by
  refine ⟨by decide, by decide, by decide⟩

/-- **C2** (amended): a loop iteration that reads the interlock disengaged while
Cycling (emergency latch irrelevant) runs the emergency handler: the state
becomes Emergency, all channels and the relay go to 0, the system halts
permanently; the phase cursor, cycle count and pattern are left as they were
(advancement indeed stops), and the pending command and clock are never
consulted. -/
theorem c2_interlock_disengage (st : Sys) (l : Option String) (n : Nat)
    (hh : st.halted = false) (hc : st.currentState = SState.cycling) :
    (step st (Ev.iter false l n)).currentState = SState.emergency ∧
    (step st (Ev.iter false l n)).hat = 0 ∧
    (step st (Ev.iter false l n)).hoodie = 0 ∧
    (step st (Ev.iter false l n)).pants = 0 ∧
    (step st (Ev.iter false l n)).shoes = 0 ∧
    (step st (Ev.iter false l n)).relay = 0 ∧
    (step st (Ev.iter false l n)).halted = true ∧
    (step st (Ev.iter false l n)).currentPhaseIndex = st.currentPhaseIndex ∧
    (step st (Ev.iter false l n)).globalCycleCount = st.globalCycleCount ∧
    (step st (Ev.iter false l n)).currentPattern = st.currentPattern ∧
    step st (Ev.iter false l n) = step st (Ev.iter false none 0) := by
  have hg := step_gate st false l n hh (Or.inr rfl)
  have hg0 := step_gate st false none 0 hh (Or.inr rfl)
  have hne : st.currentState ≠ SState.idle := by simp [hc]
  rw [hg, hg0, if_pos hne]
  obtain ⟨a1, a2, a3, a4, a5, a6, a7, a8, a9, a10, a11, _⟩ :=
    emergencyHandler_spec { st with safetyEngaged := false }
  exact ⟨a1, a4, a5, a6, a7, a8, a3, a9, a11, a10, rfl⟩

/-- Witness for C2: the concrete Cycling state reached by ARM, START_CYCLE. -/
theorem c2_interlock_disengage_witness :
    (step cyclingSt (Ev.iter false none 5)).currentState = SState.emergency ∧
    (step cyclingSt (Ev.iter false none 5)).halted = true :=
  ⟨(c2_interlock_disengage cyclingSt none 5 (by decide) (by decide)).1,
   (c2_interlock_disengage cyclingSt none 5 (by decide) (by decide)).2.2.2.2.2.2.1⟩

/-- **C3** counterexample: the very first row deviation — STOP_CYCLE received in
Idle.  The §4.2 table predicts Idle (no matching from-state), but the code sets
the state to Armed unconditionally. -/
theorem c3_claim_counterexample :
    (run (initSys twoPhasePattern) ([Cmd4.stopCycle].map cmd4Ev)).currentState =
      SState.armed ∧
    tableReplay [Cmd4.stopCycle] = SState.idle ∧
    SState.armed ≠ SState.idle := by
  refine ⟨by decide, by decide, by decide⟩

/-- **C3** (amended): replaying any sequence of the four state-machine commands
from the initial Idle state (interlock engaged, no emergency) yields the state
predicted by the *unguarded* transition function the code implements: ARM sets
Armed from any state, DISARM sets Idle from any state (and forces all outputs
and the relay off), STOP_CYCLE sets Armed from any state *without touching any
output* (no pin write at all), and only START_CYCLE is guarded (Armed to
Cycling, otherwise ignored). -/
theorem c3_transitions (pe : AttackPattern) (cmds : List Cmd4) (st : Sys) (n : Nat) :
    (run (initSys pe) (cmds.map cmd4Ev)).currentState = cmds.foldl codeStep4 SState.idle ∧
    (processCommand "DISARM" n st).hat = 0 ∧
    (processCommand "DISARM" n st).hoodie = 0 ∧
    (processCommand "DISARM" n st).pants = 0 ∧
    (processCommand "DISARM" n st).shoes = 0 ∧
    (processCommand "DISARM" n st).relay = 0 ∧
    (processCommand "STOP_CYCLE" n st).pinLog = st.pinLog := by
  have main : ∀ (cs : List Cmd4) (st0 : Sys), st0.halted = false →
      st0.emergencyTriggered = false →
      (run st0 (cs.map cmd4Ev)).currentState = cs.foldl codeStep4 st0.currentState := by
    intro cs
    induction cs with
    | nil => intro st0 _ _; rfl
    | cons c cs ih =>
        intro st0 h1 h2
        obtain ⟨q1, q2, q3⟩ := cmd4_step_state st0 c h1 h2
        show (run (step st0 (cmd4Ev c)) (cs.map cmd4Ev)).currentState = _
        rw [ih (step st0 (cmd4Ev c)) q2 q3, q1]
        rfl
  exact ⟨main cmds (initSys pe) rfl rfl, rfl, rfl, rfl, rfl, rfl, rfl⟩

/-- **C7** counterexample: a malformed `LOAD_PATTERN` payload is *not* ignored —
`toInt` parses `"abc"` as 0, which is in range, so catalog pattern 0 is loaded
and the acceptance acknowledgement is emitted. -/
theorem c7_claim_counterexample :
    (processCommand "LOAD_PATTERN:abc" 0 (initSys twoPhasePattern)).currentPattern ≠
      (initSys twoPhasePattern).currentPattern ∧
    (processCommand "LOAD_PATTERN:abc" 0 (initSys twoPhasePattern)).serialOut =
      ["PATTERN_LOADED:AGC_Lock_5_Second"] := by
  refine ⟨by decide, by decide⟩

/-- **C7** (amended): processing an *unrecognized* command line leaves the entire
state unchanged, and `LOAD_PATTERN:99` against the catalog of size 3 is ignored
(state identical, no `PATTERN_LOADED` acknowledgement).  The claim's extension to
every malformed `LOAD_PATTERN` payload fails: non-numeric payloads parse as 0 and
values are truncated to `uint8_t`, so such payloads can load a catalog entry. -/
theorem c7_malformed_ignore (st : Sys) (n : Nat) (cmd : String) :
    processCommand "LOAD_PATTERN:99" n st = st ∧
    (Unrecognized cmd → processCommand cmd n st = st) :=
  ⟨pc_load99 n st, fun h => pc_unrecognized cmd n st h⟩

/-- Witness for C7 at a concrete unrecognized command. -/
theorem c7_malformed_ignore_witness :
    processCommand "LOAD_PATTERN:99" 0 (initSys twoPhasePattern) = initSys twoPhasePattern ∧
    processCommand "HELLO" 0 (initSys twoPhasePattern) = initSys twoPhasePattern :=
  ⟨(c7_malformed_ignore (initSys twoPhasePattern) 0 "HELLO").1,
   (c7_malformed_ignore (initSys twoPhasePattern) 0 "HELLO").2 (by decide)⟩

/-- **C5** counterexample: the pattern with a zero-duration phase (standing for the
unvalidated startup load) is current, schedulable — it completes two full cycles
in three loop iterations and drives the hat channel to 255 — and the serial log
shows acknowledgements only, never a rejection. -/
theorem c5_claim_counterexample :
    (run (initSys zeroDurPattern)
      [Ev.iter true (some "ARM") 0, Ev.iter true (some "START_CYCLE") 0,
       Ev.iter true none 0]).globalCycleCount = 2 ∧
    (run (initSys zeroDurPattern)
      [Ev.iter true (some "ARM") 0, Ev.iter true (some "START_CYCLE") 0,
       Ev.iter true none 0]).currentPattern = zeroDurPattern ∧
    (run (initSys zeroDurPattern)
      [Ev.iter true (some "ARM") 0, Ev.iter true (some "START_CYCLE") 0,
       Ev.iter true none 0]).hat = 255 ∧
    (run (initSys zeroDurPattern)
      [Ev.iter true (some "ARM") 0, Ev.iter true (some "START_CYCLE") 0,
       Ev.iter true none 0]).serialOut =
      ["ACK_ARMED", "CYCLE_STARTED", "CYCLE_COMPLETE:1", "CYCLE_COMPLETE:2"] := by
  refine ⟨by decide, by decide, by decide, by decide⟩

/-- **C5** (amended): no load path validates phase durations.  `LOAD_PATTERN`
accepts every in-range index unconditionally, replacing the pattern and emitting
the acceptance acknowledgement — no rejection branch exists; the built-in catalog
happens to contain only positive durations within each entry's `phaseCount`, so a
zero-duration phase never becomes current through `LOAD_PATTERN`, but the
unvalidated startup load can make a zero-duration pattern current, and such a
pattern schedules normally (its phase fires on every tick). -/
theorem c5_load_no_validation (st : Sys) (n : Nat) :
    (∀ i, i < 3 → ∀ j, j < (PROVEN_PATTERNS.getD i emptyPattern).phaseCount →
      0 < ((PROVEN_PATTERNS.getD i emptyPattern).phases.getD j zeroPhase).durationMs) ∧
    processCommand "LOAD_PATTERN:0" n st =
      serialLine "PATTERN_LOADED:AGC_Lock_5_Second"
        { st with currentPattern := PROVEN_PATTERNS.getD 0 (AttackPattern.mk "" 0 [] 0) } ∧
    processCommand "LOAD_PATTERN:1" n st =
      serialLine "PATTERN_LOADED:Sensor_Saturation_Blast"
        { st with currentPattern := PROVEN_PATTERNS.getD 1 (AttackPattern.mk "" 0 [] 0) } ∧
    processCommand "LOAD_PATTERN:2" n st =
      serialLine "PATTERN_LOADED:Rolling_Shutter_Flicker"
        { st with currentPattern := PROVEN_PATTERNS.getD 2 (AttackPattern.mk "" 0 [] 0) } :=
  ⟨by decide, (pc_load_inrange n st).1, (pc_load_inrange n st).2.1, (pc_load_inrange n st).2.2⟩

/-- Witness for C5 exercising the bounded quantifiers of the first conjunct. -/
theorem c5_load_no_validation_witness :
    0 < ((PROVEN_PATTERNS.getD 0 emptyPattern).phases.getD 0 zeroPhase).durationMs :=
  (c5_load_no_validation (initSys twoPhasePattern) 0).1 0 (by decide) 0 (by decide)

/-- **C6** counterexample: a successful `LOAD_PATTERN:1` from a mid-cycle state
replaces the pattern but leaves the phase index at 1 and the cycle count at 1 —
the cursor is *not* reset to phase 0 / count 0 by the load. -/
theorem c6_claim_counterexample :
    midCycleSt.currentPhaseIndex = 1 ∧
    midCycleSt.globalCycleCount = 1 ∧
    (processCommand "LOAD_PATTERN:1" 160 midCycleSt).currentPattern.name =
      "Sensor_Saturation_Blast" ∧
    (processCommand "LOAD_PATTERN:1" 160 midCycleSt).currentPhaseIndex = 1 ∧
    (processCommand "LOAD_PATTERN:1" 160 midCycleSt).globalCycleCount = 1 := by
  refine ⟨by decide, by decide, by decide, by decide, by decide⟩

/-- **C6** (amended): a successful pattern load replaces *only* the pattern; the
cursor survives untouched — `currentPhaseIndex`, `globalCycleCount` and
`cycleStartTime` all keep their prior values.  The phase index is reset to 0 only
by `START_CYCLE` (from Armed), and the completed-cycle count is never reset. -/
theorem c6_load_cursor (st : Sys) (n : Nat) :
    ((processCommand "LOAD_PATTERN:0" n st).currentPhaseIndex = st.currentPhaseIndex ∧
     (processCommand "LOAD_PATTERN:1" n st).currentPhaseIndex = st.currentPhaseIndex ∧
     (processCommand "LOAD_PATTERN:2" n st).currentPhaseIndex = st.currentPhaseIndex) ∧
    ((processCommand "LOAD_PATTERN:0" n st).globalCycleCount = st.globalCycleCount ∧
     (processCommand "LOAD_PATTERN:1" n st).globalCycleCount = st.globalCycleCount ∧
     (processCommand "LOAD_PATTERN:2" n st).globalCycleCount = st.globalCycleCount) ∧
    ((processCommand "LOAD_PATTERN:0" n st).cycleStartTime = st.cycleStartTime ∧
     (processCommand "LOAD_PATTERN:1" n st).cycleStartTime = st.cycleStartTime ∧
     (processCommand "LOAD_PATTERN:2" n st).cycleStartTime = st.cycleStartTime) ∧
    ((processCommand "LOAD_PATTERN:0" n st).currentPattern =
       PROVEN_PATTERNS.getD 0 (AttackPattern.mk "" 0 [] 0) ∧
     (processCommand "LOAD_PATTERN:1" n st).currentPattern =
       PROVEN_PATTERNS.getD 1 (AttackPattern.mk "" 0 [] 0) ∧
     (processCommand "LOAD_PATTERN:2" n st).currentPattern =
       PROVEN_PATTERNS.getD 2 (AttackPattern.mk "" 0 [] 0)) ∧
    (st.currentState = SState.armed →
      (processCommand "START_CYCLE" n st).currentPhaseIndex = 0 ∧
      (processCommand "START_CYCLE" n st).globalCycleCount = st.globalCycleCount) := by
  refine ⟨⟨rfl, rfl, rfl⟩, ⟨rfl, rfl, rfl⟩, ⟨rfl, rfl, rfl⟩, ⟨rfl, rfl, rfl⟩, ?_⟩
  intro ha
  rw [pc_start, if_pos ha]
  exact ⟨rfl, rfl⟩

/-- Witness for C6 at a concrete Armed state. -/
theorem c6_load_cursor_witness :
    (processCommand "START_CYCLE" 0
      (run (initSys twoPhasePattern) [Ev.iter true (some "ARM") 0])).currentPhaseIndex = 0 :=
  ((c6_load_cursor (run (initSys twoPhasePattern) [Ev.iter true (some "ARM") 0]) 0).2.2.2.2
    (by decide)).1

/-- **C4**: tick semantics of the pattern engine.  While Cycling, a tick whose
timestamp satisfies `now - phaseStartTimestamp >= currentPhase.durationMs`
applies the current phase's (channelGroup, intensity) to the output driver
exactly once (the pin-write log grows by exactly that phase's `setLEDGroup`
writes), advances the cursor to the next phase in order, wraps the index to 0
and increments the completed-cycle count by exactly 1 at sequence end, and sets
the phase start timestamp to `now`; an earlier tick changes nothing.  In
particular the 2-phase pattern with durations {50 ms, 50 ms} ticked every 10 ms
for 220 ms completes exactly 2 cycles, ends at phase index 0, and its write log
is each phase's writes exactly once per cycle, in order. -/
theorem c4_tick_semantics (st : Sys) (now : Nat)
    (hcyc : st.currentState = SState.cycling) (hnow : now < M32)
    (hcnt : st.globalCycleCount + 1 < M32) (hidx : st.currentPhaseIndex + 1 < 256) :
    (elapsed32 now st.cycleStartTime ≥
        (st.currentPattern.phases.getD st.currentPhaseIndex zeroPhase).durationMs →
      (processAutonomousCycle now st).pinLog = st.pinLog ++
        groupWrites (st.currentPattern.phases.getD st.currentPhaseIndex zeroPhase).ledGroup
          (st.currentPattern.phases.getD st.currentPhaseIndex zeroPhase).intensity ∧
      (processAutonomousCycle now st).cycleStartTime = now ∧
      (st.currentPhaseIndex + 1 ≥ st.currentPattern.phaseCount →
        (processAutonomousCycle now st).currentPhaseIndex = 0 ∧
        (processAutonomousCycle now st).globalCycleCount = st.globalCycleCount + 1) ∧
      (st.currentPhaseIndex + 1 < st.currentPattern.phaseCount →
        (processAutonomousCycle now st).currentPhaseIndex = st.currentPhaseIndex + 1 ∧
        (processAutonomousCycle now st).globalCycleCount = st.globalCycleCount)) ∧
    (elapsed32 now st.cycleStartTime <
        (st.currentPattern.phases.getD st.currentPhaseIndex zeroPhase).durationMs →
      processAutonomousCycle now st = st) ∧
    (run (initSys twoPhasePattern) c4Events).globalCycleCount = 2 ∧
    (run (initSys twoPhasePattern) c4Events).currentPhaseIndex = 0 ∧
    (run (initSys twoPhasePattern) c4Events).pinLog =
      groupWrites 0 100 ++ groupWrites 1 200 ++ groupWrites 0 100 ++ groupWrites 1 200 := by
  have hmod : (st.currentPhaseIndex + 1) % 256 = st.currentPhaseIndex + 1 :=
    Nat.mod_eq_of_lt hidx
  refine ⟨?_, ?_, by decide, by decide, by decide⟩
  · intro hge
    obtain ⟨f1, f2, _, _, _, _, _, f8⟩ := pac_fire now st hcyc hge
    rw [hmod] at f8
    refine ⟨f1, by rw [f2]; exact Nat.mod_eq_of_lt hnow, ?_, ?_⟩
    · intro hwrap
      rw [if_pos hwrap] at f8
      exact ⟨f8.1, by rw [f8.2]; exact Nat.mod_eq_of_lt hcnt⟩
    · intro hlt
      rw [if_neg (by omega)] at f8
      exact f8
  · intro hlt
    exact pac_noFire now st hcyc hlt

/-- Witness for C4: the concrete Cycling state ticked at exactly 50 ms fires,
stamping the new phase start and advancing to phase 1. -/
theorem c4_tick_semantics_witness :
    (processAutonomousCycle 50 cyclingSt).cycleStartTime = 50 ∧
    (processAutonomousCycle 50 cyclingSt).currentPhaseIndex = 1 :=
  ⟨((c4_tick_semantics cyclingSt 50 (by decide) (by decide) (by decide) (by decide)).1
      (by decide)).2.1,
   (((c4_tick_semantics cyclingSt 50 (by decide) (by decide) (by decide) (by decide)).1
      (by decide)).2.2.2 (by decide)).1⟩

/-- `setGroupBranch` either leaves the relay alone (parse failure) or drives it
HIGH via `setLEDGroup`; it never halts. -/
theorem setGroupBranch_relay (cmd : String) (st : Sys) :
    ((setGroupBranch cmd st).relay = st.relay ∨ (setGroupBranch cmd st).relay = 1) ∧
    (setGroupBranch cmd st).halted = st.halted := by
  simp only [setGroupBranch]
  split_ifs
  · refine ⟨Or.inr ?_, ?_⟩
    · exact setLEDGroup_relay _ _ st
    · exact (setLEDGroup_ctrl _ _ st).2.2.2.2.2.2.2
  · exact ⟨Or.inl rfl, rfl⟩

/-- Relay classification of `processCommand`: every branch either keeps the relay
or drives it HIGH (and keeps `halted`), except DISARM, ALL_OFF and EMERGENCY. -/
theorem pc_relay_halted (cmd : String) (n : Nat) (st : Sys) :
    (((processCommand cmd n st).relay = st.relay ∨ (processCommand cmd n st).relay = 1) ∧
      (processCommand cmd n st).halted = st.halted) ∨
    (cmd = "DISARM" ∨ cmd = "ALL_OFF" ∨ cmd = "EMERGENCY") := by
  simp only [processCommand]
  split_ifs <;>
    first
      | (left; exact ⟨Or.inl rfl, rfl⟩)
      | (left; exact setGroupBranch_relay cmd st)
      | (right; tauto)

/-- Relay classification of `processSerialCommand`. -/
theorem psc_relay_halted (l : Option String) (n : Nat) (st : Sys) :
    (((processSerialCommand l n st).relay = st.relay ∨
        (processSerialCommand l n st).relay = 1) ∧
      (processSerialCommand l n st).halted = st.halted) ∨
    (l.map trimS = some "DISARM" ∨ l.map trimS = some "ALL_OFF" ∨
     l.map trimS = some "EMERGENCY") := by
  cases l with
  | none => exact Or.inl ⟨Or.inl rfl, rfl⟩
  | some line =>
      rcases pc_relay_halted (trimS line) n st with h | h
      · exact Or.inl h
      · right
        rcases h with h | h | h
        · exact Or.inl (by simp [h])
        · exact Or.inr (Or.inl (by simp [h]))
        · exact Or.inr (Or.inr (by simp [h]))

/-- `processAutonomousCycle` either keeps the relay or drives it HIGH. -/
theorem pac_relay (now : Nat) (st : Sys) :
    (processAutonomousCycle now st).relay = st.relay ∨
    (processAutonomousCycle now st).relay = 1 := by
  by_cases h : st.currentState = .cycling
  · by_cases hge : elapsed32 now st.cycleStartTime ≥
        (st.currentPattern.phases.getD st.currentPhaseIndex zeroPhase).durationMs
    · right
      have er : (executeCurrentPhase st).relay = 1 := setLEDGroup_relay _ _ st
      simp only [processAutonomousCycle]
      rw [if_pos h, if_pos hge]
      split_ifs <;> simp [serialLine, er]
    · left; rw [pac_noFire now st h (by omega)]
  · left; rw [pac_notCycling now st h]

/-- `step_run` with the command-stage state spelled out on both sides of the ite. -/
theorem step_run_ite (st : Sys) (l : Option String) (n : Nat)
    (hh : st.halted = false) (he : st.emergencyTriggered = false) :
    step st (Ev.iter true l n) =
      (if (processSerialCommand l n { st with safetyEngaged := true }).halted = true then
        processSerialCommand l n { st with safetyEngaged := true }
       else processAutonomousCycle n (processSerialCommand l n { st with safetyEngaged := true })) := by
  rw [step_run st l n hh he]

/-- **C10**: every call to `setLEDGroup` writes the power relay HIGH before any
channel write (the relay write heads the write sequence, for every group and
intensity — including group values above 5, which change no channel register),
and a non-halted step can only leave the relay LOW if it was already LOW or the
event reaches `allLEDsOff` — an iteration taken under the emergency latch or a
disengaged interlock, or one whose command line is DISARM, ALL_OFF or EMERGENCY. -/
theorem c10_relay_discipline (g i : Nat) (st : Sys) (ev : Ev) :
    (setLEDGroup g i st).pinLog = st.pinLog ++ groupWrites g i ∧
    (groupWrites g i).head? = some (PinWrite.digital Pin.relay 1) ∧
    (setLEDGroup g i st).relay = 1 ∧
    (6 ≤ g →
      (setLEDGroup g i st).hat = st.hat ∧ (setLEDGroup g i st).hoodie = st.hoodie ∧
      (setLEDGroup g i st).pants = st.pants ∧ (setLEDGroup g i st).shoes = st.shoes) ∧
    (st.halted = false → (step st ev).relay = 0 → st.relay = 0 ∨ RelayOffEvent st ev) := by
  refine ⟨setLEDGroup_pinLog g i st, rfl, setLEDGroup_relay g i st,
    fun h6 => setLEDGroup_channels_other g i st h6, ?_⟩
  intro hh hz
  cases ev with
  | isr =>
      left
      have hstep : (step st Ev.isr).relay = st.relay := by
        unfold step
        rw [if_neg (by simp [hh])]
        rfl
      exact hstep.symm.trans hz
  | iter s l n =>
      by_cases hb : (st.emergencyTriggered || !s) = true
      · right
        refine ⟨s, l, n, rfl, ?_⟩
        rcases (by simpa using hb : st.emergencyTriggered = true ∨ s = false) with h | h
        · exact Or.inl h
        · exact Or.inr (Or.inl h)
      · have hs : s = true := by
          cases s
          · simp at hb
          · rfl
        have he : st.emergencyTriggered = false := by
          cases hE : st.emergencyTriggered
          · rfl
          · rw [hE] at hb; simp at hb
        subst hs
        rw [step_run_ite st l n hh he] at hz
        rcases psc_relay_halted l n { st with safetyEngaged := true } with ⟨hrel, hhal⟩ | hcmd
        · have hhal' : (processSerialCommand l n { st with safetyEngaged := true }).halted =
              false := by rw [hhal]; exact hh
          rw [if_neg (by simp [hhal'])] at hz
          rcases pac_relay n (processSerialCommand l n { st with safetyEngaged := true }) with
            hp | hp
          · rw [hp] at hz
            rcases hrel with hr | hr
            · rw [hr] at hz
              exact Or.inl hz
            · rw [hr] at hz
              exact absurd hz (by decide)
          · rw [hp] at hz
            exact absurd hz (by decide)
        · exact Or.inr ⟨true, l, n, rfl, Or.inr (Or.inr hcmd)⟩

/-- Witness for C10: an out-of-range group changes no channel, and a plain idle
iteration leaves the initially-LOW relay LOW. -/
theorem c10_relay_discipline_witness :
    (setLEDGroup 7 5 (initSys twoPhasePattern)).hat = (initSys twoPhasePattern).hat ∧
    ((initSys twoPhasePattern).relay = 0 ∨
      RelayOffEvent (initSys twoPhasePattern) (Ev.iter true none 0)) :=
  ⟨((c10_relay_discipline 7 5 (initSys twoPhasePattern) (Ev.iter true none 0)).2.2.2.1
      (by decide)).1,
   (c10_relay_discipline 7 5 (initSys twoPhasePattern) (Ev.iter true none 0)).2.2.2.2
      (by decide) (by decide)⟩

/-! ## Cursor-invariant lemmas for C9 -/

/-- Every catalog entry fills its 20-slot array, declares at most 20 phases, and
has zero-duration (value-initialized) slots beyond its `phaseCount`. -/
theorem catalog_wf : ∀ k, k < 3 →
    (PROVEN_PATTERNS.getD k (AttackPattern.mk "" 0 [] 0)).phases.length = 20 ∧
    (PROVEN_PATTERNS.getD k (AttackPattern.mk "" 0 [] 0)).phaseCount ≤ 20 ∧
    (∀ j, j < 20 → (PROVEN_PATTERNS.getD k (AttackPattern.mk "" 0 [] 0)).phaseCount ≤ j →
      ((PROVEN_PATTERNS.getD k (AttackPattern.mk "" 0 [] 0)).phases.getD j
        zeroPhase).durationMs = 0) := by
  decide

theorem cursorInv_of_eq {a b : Sys} (e1 : a.currentPattern = b.currentPattern)
    (e2 : a.currentPhaseIndex = b.currentPhaseIndex) (h : CursorInv b) : CursorInv a := by
  unfold CursorInv at *
  rw [e1, e2]
  exact h

theorem cursorInv_idx20 (st : Sys) (h : CursorInv st) : st.currentPhaseIndex < 20 := by
  obtain ⟨hl, hpc, hd | hd⟩ := h
  · have hm : max st.currentPattern.phaseCount 1 ≤ 20 := max_le hpc (by norm_num)
    omega
  · exact hd.1

theorem cursorInv_load (st : Sys) (k : Nat) (hk : k < 3) (h : CursorInv st) :
    CursorInv { st with currentPattern :=
      PROVEN_PATTERNS.getD k (AttackPattern.mk "" 0 [] 0) } := by
  have hidx20 := cursorInv_idx20 st h
  obtain ⟨w1, w2, w3⟩ := catalog_wf k hk
  by_cases hin : st.currentPhaseIndex <
      (PROVEN_PATTERNS.getD k (AttackPattern.mk "" 0 [] 0)).phaseCount
  · exact ⟨w1, w2, Or.inl (lt_max_of_lt_left hin)⟩
  · exact ⟨w1, w2, Or.inr ⟨hidx20, w3 st.currentPhaseIndex hidx20 (by omega)⟩⟩

theorem cursorInv_pc (cmd : String) (n : Nat) (st : Sys) (h : CursorInv st) :
    CursorInv (processCommand cmd n st) := by
  simp only [processCommand]
  split_ifs
  · exact cursorInv_of_eq rfl rfl h
  · exact cursorInv_of_eq (allLEDsOff_ctrl _).2.2.2.1 (allLEDsOff_ctrl _).2.2.2.2.1 h
  · exact ⟨h.1, h.2.1, Or.inl (lt_max_of_lt_right Nat.one_pos)⟩
  · exact h
  · exact cursorInv_of_eq rfl rfl h
  · rename_i hk
    exact cursorInv_load st _ hk h
  · exact h
  · simp only [setGroupBranch]
    split_ifs
    · exact cursorInv_of_eq (setLEDGroup_ctrl _ _ _).2.2.2.1
        (setLEDGroup_ctrl _ _ _).2.2.2.2.1 h
    · exact cursorInv_of_eq rfl rfl h
  · exact cursorInv_of_eq (emergencyHandler_spec st).2.2.2.2.2.2.2.2.2.1
      (emergencyHandler_spec st).2.2.2.2.2.2.2.2.1 h
  · exact cursorInv_of_eq rfl rfl h
  · exact cursorInv_of_eq rfl rfl h
  · exact cursorInv_of_eq rfl rfl h
  · exact cursorInv_of_eq rfl rfl h
  · exact cursorInv_of_eq rfl rfl h
  · exact cursorInv_of_eq (allLEDsOff_ctrl st).2.2.2.1 (allLEDsOff_ctrl st).2.2.2.2.1 h
  · exact h

theorem cursorInv_psc (l : Option String) (n : Nat) (st : Sys) (h : CursorInv st) :
    CursorInv (processSerialCommand l n st) := by
  cases l with
  | none => exact h
  | some line => exact cursorInv_pc (trimS line) n st h

theorem cursorInv_pac (now : Nat) (st : Sys) (h : CursorInv st) :
    CursorInv (processAutonomousCycle now st) := by
  by_cases hc : st.currentState = .cycling
  · by_cases hge : elapsed32 now st.cycleStartTime ≥
        (st.currentPattern.phases.getD st.currentPhaseIndex zeroPhase).durationMs
    · obtain ⟨_, _, _, f4, _, _, _, f8⟩ := pac_fire now st hc hge
      refine ⟨by rw [f4]; exact h.1, by rw [f4]; exact h.2.1, ?_⟩
      by_cases hw : (st.currentPhaseIndex + 1) % 256 ≥ st.currentPattern.phaseCount
      · rw [if_pos hw] at f8
        left
        rw [f8.1, f4]
        exact lt_max_of_lt_right Nat.one_pos
      · rw [if_neg hw] at f8
        left
        rw [f8.1, f4]
        exact lt_max_of_lt_left (by omega)
    · rw [pac_noFire now st hc (by omega)]
      exact h
  · rw [pac_notCycling now st hc]
    exact h

theorem cursorInv_step (st : Sys) (ev : Ev) (h : CursorInv st) : CursorInv (step st ev) := by
  by_cases hh : st.halted = true
  · rw [step_halted st ev hh]
    exact h
  · have hh' : st.halted = false := by simpa using hh
    cases ev with
    | isr =>
        have hs : step st Ev.isr = emergencyISR st := by
          unfold step
          rw [if_neg (by simp [hh'])]
        rw [hs]
        exact h
    | iter s l n =>
        by_cases hb : (st.emergencyTriggered || !s) = true
        · have hcond : st.emergencyTriggered = true ∨ s = false := by simpa using hb
          rw [step_gate st s l n hh' hcond]
          split_ifs
          · exact cursorInv_of_eq (emergencyHandler_spec _).2.2.2.2.2.2.2.2.2.1
              (emergencyHandler_spec _).2.2.2.2.2.2.2.2.1 h
          · exact cursorInv_of_eq rfl rfl h
        · have hs : s = true := by
            cases s
            · simp at hb
            · rfl
          have he : st.emergencyTriggered = false := by
            cases hE : st.emergencyTriggered
            · rfl
            · rw [hE] at hb; simp at hb
          subst hs
          rw [step_run_ite st l n hh' he]
          have hx := cursorInv_psc l n { st with safetyEngaged := true } h
          split_ifs
          · exact hx
          · exact cursorInv_pac n _ hx

theorem cursorInv_run (evs : List Ev) :
    ∀ st : Sys, CursorInv st → CursorInv (run st evs) := by
  induction evs with
  | nil => exact fun st h => h
  | cons ev evs ih =>
      intro st h
      exact ih (step st ev) (cursorInv_step st ev h)

/-- **C9**: provided the persisted pattern read at startup fills its 20-slot
array with at most 20 declared phases (every other pattern that can become
current is a catalog entry, which satisfies this), every reachable state keeps
`currentPhaseIndex` strictly below 20 — so the `phases[currentPhaseIndex]` read
of `processAutonomousCycle` stays inside the array — and any tick taken while
Cycling leaves the index inside `[0, max(phaseCount, 1))` of the then-current
pattern, across START_CYCLE, pattern loads (which do not touch the index) and
cycle wrap-around. -/
theorem c9_phase_bounds (pe : AttackPattern)
    (h1 : pe.phases.length = 20) (h2 : pe.phaseCount ≤ 20)
    (evs : List Ev) (now : Nat) :
    (run (initSys pe) evs).currentPhaseIndex < 20 ∧
    (run (initSys pe) evs).currentPhaseIndex <
      (run (initSys pe) evs).currentPattern.phases.length ∧
    ((run (initSys pe) evs).currentState = SState.cycling →
      (processAutonomousCycle now (run (initSys pe) evs)).currentPhaseIndex <
        max (run (initSys pe) evs).currentPattern.phaseCount 1) := by
  have hinit : CursorInv (initSys pe) := ⟨h1, h2, Or.inl (lt_max_of_lt_right Nat.one_pos)⟩
  have hinv := cursorInv_run evs (initSys pe) hinit
  refine ⟨cursorInv_idx20 _ hinv, ?_, ?_⟩
  · rw [hinv.1]
    exact cursorInv_idx20 _ hinv
  · intro hcyc
    by_cases hge : elapsed32 now (run (initSys pe) evs).cycleStartTime ≥
        ((run (initSys pe) evs).currentPattern.phases.getD
          (run (initSys pe) evs).currentPhaseIndex zeroPhase).durationMs
    · obtain ⟨_, _, _, _, _, _, _, f8⟩ := pac_fire now (run (initSys pe) evs) hcyc hge
      by_cases hw : ((run (initSys pe) evs).currentPhaseIndex + 1) % 256 ≥
          (run (initSys pe) evs).currentPattern.phaseCount
      · rw [if_pos hw] at f8
        rw [f8.1]
        exact lt_max_of_lt_right Nat.one_pos
      · rw [if_neg hw] at f8
        rw [f8.1]
        exact lt_max_of_lt_left (by omega)
    · rw [pac_noFire now (run (initSys pe) evs) hcyc (by omega)]
      obtain ⟨_, _, hd | hd⟩ := hinv
      · exact hd
      · exfalso
        have hz := hd.2
        omega

/-- Witness for C9: the two-phase persisted pattern, armed and started, ticked at
50 ms. -/
theorem c9_phase_bounds_witness :
    cyclingSt.currentPhaseIndex < 20 ∧
    (processAutonomousCycle 50 cyclingSt).currentPhaseIndex <
      max cyclingSt.currentPattern.phaseCount 1 :=
  ⟨(c9_phase_bounds twoPhasePattern (by decide) (by decide)
      [Ev.iter true (some "ARM") 0, Ev.iter true (some "START_CYCLE") 0] 50).1,
   (c9_phase_bounds twoPhasePattern (by decide) (by decide)
      [Ev.iter true (some "ARM") 0, Ev.iter true (some "START_CYCLE") 0] 50).2.2 (by decide)⟩

end IRWP
